import Mathlib

/-!
Shallow embedding of the ARIMA-based CPU-utilization anomaly detector
(`src/main.py`).  Numeric values are modelled exactly: the data columns as
rationals, the standard deviation and the derived thresholds as real numbers
(the square root is irrational in general).  A pandas statistic that is NaN
(the sample standard deviation of fewer than two values) is modelled as
`none`; a comparison against a NaN bound is false, as in IEEE arithmetic,
so an `Option` that is `none` makes the anomaly predicate false.
-/

namespace CPUAnomaly

/-- Configuration entry days = 30. -/
def days : ℕ := 30

/-- Configuration entry hours_per_day = 24. -/
def hoursPerDay : ℕ := 24

/-- Configuration entry anomaly_threshold = 2.5, the sigma multiplier `k`. -/
def anomalyThreshold : ℚ := 5/2

/-- Injected anomaly positions: anomalies_indices = [50, 120, 300, 550, 680]
in `generate_synthetic_data`. -/
def anomaliesIndices : List ℕ := [50, 120, 300, 550, 680]

/-- One point of np.clip(x, 0, 100): clamp below at 0, then above at 100. -/
noncomputable def clip (x : ℝ) : ℝ := min (max x 0) 100

/-- The deterministic part of the generated signal at hour `t`:
`40 + 10*sin(2*pi*t/24) + 0.05*t` (base level + daily seasonality + trend). -/
noncomputable def baseSignal (t : ℕ) : ℝ :=
  40 + 10 * Real.sin (2 * Real.pi * t / 24) + (5/100 : ℝ) * t

/-- Model of `generate_synthetic_data`, with the two seeded random streams passed in
explicitly: `noise t` is the Gaussian noise drawn at step `t`, and `spike t`
is the magnitude `np.random.choice([30, -25])` drawn for an anomaly index `t`.
The source mutates `cpu_usage[idx] += ...` over the (distinct, in-range)
anomaly indices and then clips; adding the spike pointwise before clipping is
the same computation. -/
noncomputable def generate_synthetic_data (noise spike : ℕ → ℝ) : List ℝ :=
  (List.range (days * hoursPerDay)).map fun t =>
    clip (baseSignal t + noise t + (if t ∈ anomaliesIndices then spike t else 0))

/-- The residual column: the cpu_percent column minus the predicted column,
element-wise. -/
def residuals (observed predicted : List ℚ) : List ℚ :=
  List.zipWith (fun a b => a - b) observed predicted

/-- Pandas Series.mean(): the sum divided by the length. -/
def mean (xs : List ℚ) : ℚ := xs.sum / (xs.length : ℚ)

/-- The square of `pandas.Series.std()` (sample variance, `ddof = 1`):
the sum of squared deviations from the mean divided by `n - 1`.
For fewer than two values pandas returns NaN, modelled as `none`. -/
def sampleVar (xs : List ℚ) : Option ℚ :=
  if 2 ≤ xs.length then
    some ((xs.map (fun x => (x - mean xs) ^ 2)).sum / ((xs.length : ℚ) - 1))
  else none

/-- The residual_std statistic (pandas Series.std() of the residual column):
the square root of the sample
variance, NaN (`none`) for fewer than two values. -/
noncomputable def sampleStd (xs : List ℚ) : Option ℝ :=
  (sampleVar xs).map fun v => Real.sqrt (v : ℝ)

/-- The bound upper_threshold = residual_mean + k * residual_std. -/
noncomputable def upperThreshold (rs : List ℚ) (k : ℚ) : Option ℝ :=
  (sampleStd rs).map fun s => (mean rs : ℝ) + (k : ℝ) * s

/-- The bound lower_threshold = residual_mean - k * residual_std. -/
noncomputable def lowerThreshold (rs : List ℚ) (k : ℚ) : Option ℝ :=
  (sampleStd rs).map fun s => (mean rs : ℝ) - (k : ℝ) * s

/-- Row `i` of the flag column: the residual strictly above the upper threshold
or strictly below the lower one.  When the thresholds are NaN (`none`) both
comparisons are false. -/
def IsAnomaly (observed predicted : List ℚ) (k : ℚ) (i : ℕ) : Prop :=
  match upperThreshold (residuals observed predicted) k,
        lowerThreshold (residuals observed predicted) k with
  | some u, some l =>
      (((residuals observed predicted).getD i 0 : ℚ) : ℝ) > u ∨
      (((residuals observed predicted).getD i 0 : ℚ) : ℝ) < l
  | _, _ => False

/-- Decidable form of the anomaly test: because the thresholds are symmetric
about the mean and `k ≥ 0`, `r > μ + k·σ ∨ r < μ - k·σ` is equivalent to
`(r - μ)² > k² · σ²`, which avoids the square root; the equivalence with
`IsAnomaly` is proved in `isAnomaly_iff_isAnomalyB`. -/
def isAnomalyB (observed predicted : List ℚ) (k : ℚ) (i : ℕ) : Bool :=
  match sampleVar (residuals observed predicted) with
  | some v =>
      decide (((residuals observed predicted).getD i 0
                - mean (residuals observed predicted)) ^ 2 > k ^ 2 * v)
  | none => false

/-- One row of the annotated dataframe after `train_and_detect`. -/
structure AnnotatedRecord where
  timestamp : ℕ
  cpu_percent : ℚ
  predicted : ℚ
  residual : ℚ
  is_anomaly : Bool
  deriving DecidableEq, Repr

/-- The dataframe after `train_and_detect`: one record per index, joining the
timestamp, observed and predicted columns with the residual and the flag. -/
def annotate (ts : List ℕ) (observed predicted : List ℚ) (k : ℚ) :
    List AnnotatedRecord :=
  (List.range observed.length).map fun i =>
    { timestamp := ts.getD i 0
      cpu_percent := observed.getD i 0
      predicted := predicted.getD i 0
      residual := (residuals observed predicted).getD i 0
      is_anomaly := isAnomalyB observed predicted k i }

/-- The data the plot reads from the dataframe in `visualize_results`:
the timestamps and observed values of the flagged rows, the threshold multiplier
and the anomaly count shown in the title. -/
structure PlotData where
  anomalyTimestamps : List ℕ
  anomalyValues : List ℚ
  titleThreshold : ℚ
  titleCount : ℕ
  deriving DecidableEq, Repr

/-- Model of visualize_results: reads the dataframe, renders the plot, and leaves
the dataframe untouched; modelled as returning the plot data together with the
records it was given. -/
def visualize_results (records : List AnnotatedRecord) (k : ℚ) :
    PlotData × List AnnotatedRecord :=
  (⟨(records.filter (·.is_anomaly)).map (·.timestamp),
    (records.filter (·.is_anomaly)).map (·.cpu_percent),
    k,
    (records.filter (·.is_anomaly)).length⟩,
   records)

/-- Model of save_report: keeps the anomalous rows only, in their original
order. -/
def save_report (records : List AnnotatedRecord) : List AnnotatedRecord :=
  records.filter (·.is_anomaly)

/-! ### Helper lemmas -/

lemma sampleVar_nonneg {xs : List ℚ} {v : ℚ} (h : sampleVar xs = some v) : 0 ≤ v := by
  unfold sampleVar at h
  split at h
  · rename_i hlen
    injection h with h
    subst h
    apply div_nonneg
    · apply List.sum_nonneg
      intro x hx
      simp only [List.mem_map] at hx
      obtain ⟨y, _, rfl⟩ := hx
      positivity
    · have h2 : (2:ℚ) ≤ (xs.length : ℚ) := by exact_mod_cast hlen
      linarith
  · exact absurd h (by simp)

lemma sampleVar_none {xs : List ℚ} (h : xs.length < 2) : sampleVar xs = none := by
  unfold sampleVar
  rw [if_neg (by omega)]

lemma sampleStd_eq {xs : List ℚ} {v : ℚ} (h : sampleVar xs = some v) :
    sampleStd xs = some (Real.sqrt (v : ℝ)) := by
  simp [sampleStd, h]

lemma upperThreshold_eq {rs : List ℚ} {v : ℚ} (k : ℚ) (h : sampleVar rs = some v) :
    upperThreshold rs k = some ((mean rs : ℝ) + (k : ℝ) * Real.sqrt (v : ℝ)) := by
  simp [upperThreshold, sampleStd_eq h]

lemma lowerThreshold_eq {rs : List ℚ} {v : ℚ} (k : ℚ) (h : sampleVar rs = some v) :
    lowerThreshold rs k = some ((mean rs : ℝ) - (k : ℝ) * Real.sqrt (v : ℝ)) := by
  simp [lowerThreshold, sampleStd_eq h]

lemma isAnomaly_def {observed predicted : List ℚ} {k : ℚ} {u l : ℝ}
    (hu : upperThreshold (residuals observed predicted) k = some u)
    (hl : lowerThreshold (residuals observed predicted) k = some l) (i : ℕ) :
    IsAnomaly observed predicted k i ↔
      (((residuals observed predicted).getD i 0 : ℚ) : ℝ) > u ∨
      (((residuals observed predicted).getD i 0 : ℚ) : ℝ) < l := by
  unfold IsAnomaly
  rw [hu, hl]

lemma not_isAnomaly_of_none {observed predicted : List ℚ} {k : ℚ}
    (h : sampleVar (residuals observed predicted) = none) (i : ℕ) :
    ¬ IsAnomaly observed predicted k i := by
  unfold IsAnomaly upperThreshold lowerThreshold sampleStd
  rw [h]
  simp

/-- Pure real-number fact behind the decidable anomaly test: a symmetric
band of half-width `c ≥ 0` about `m` is escaped exactly when the squared
deviation exceeds `c²`. -/
lemma mem_band_iff_sq {x m c : ℝ} (hc : 0 ≤ c) :
    (x > m + c ∨ x < m - c) ↔ (x - m) ^ 2 > c ^ 2 := by
  constructor
  · rintro (h | h) <;> nlinarith [sq_nonneg (x - m - c), sq_nonneg (x - m + c)]
  · intro h
    rcases le_or_lt x m with hxm | hxm
    · right; nlinarith [sq_nonneg (x - m + c)]
    · left; nlinarith [sq_nonneg (x - m - c)]

lemma isAnomaly_iff_isAnomalyB {observed predicted : List ℚ} {k : ℚ} (hk : 0 ≤ k) (i : ℕ) :
    IsAnomaly observed predicted k i ↔ isAnomalyB observed predicted k i = true := by
  cases hv : sampleVar (residuals observed predicted) with
  | none =>
      rw [isAnomalyB, hv]
      simp [not_isAnomaly_of_none hv i]
  | some v =>
      have hv0 : (0:ℚ) ≤ v := sampleVar_nonneg hv
      rw [isAnomaly_def (upperThreshold_eq k hv) (lowerThreshold_eq k hv) i,
        isAnomalyB, hv]
      simp only [decide_eq_true_eq]
      have hc : (0:ℝ) ≤ (k : ℝ) * Real.sqrt (v : ℝ) :=
        mul_nonneg (by exact_mod_cast hk) (Real.sqrt_nonneg _)
      rw [mem_band_iff_sq hc]
      have hsq : ((k : ℝ) * Real.sqrt (v : ℝ)) ^ 2 = (k : ℝ) ^ 2 * (v : ℝ) := by
        rw [mul_pow, Real.sq_sqrt (by exact_mod_cast hv0)]
      rw [hsq]
      constructor
      · intro h
        exact_mod_cast h
      · intro h
        exact_mod_cast h

lemma length_residuals (observed predicted : List ℚ) :
    (residuals observed predicted).length = min observed.length predicted.length := by
  simp [residuals]

lemma residuals_getD (observed predicted : List ℚ) (i : ℕ)
    (h1 : i < observed.length) (h2 : i < predicted.length) :
    (residuals observed predicted).getD i 0 = observed.getD i 0 - predicted.getD i 0 := by
  have hr : i < (residuals observed predicted).length := by
    rw [length_residuals]; omega
  rw [List.getD_eq_getElem _ _ hr, List.getD_eq_getElem _ _ h1, List.getD_eq_getElem _ _ h2]
  simp [residuals]

lemma mean_const {xs : List ℚ} {c : ℚ} (hne : xs ≠ []) (h : ∀ x ∈ xs, x = c) :
    mean xs = c := by
  unfold mean
  rw [List.sum_eq_card_nsmul xs c h, nsmul_eq_mul]
  have hlen : (xs.length : ℚ) ≠ 0 := by
    have := List.length_pos.mpr hne
    positivity
  field_simp

lemma sampleVar_const {xs : List ℚ} {c : ℚ} (h2 : 2 ≤ xs.length) (h : ∀ x ∈ xs, x = c) :
    sampleVar xs = some 0 := by
  have hne : xs ≠ [] := List.length_pos.mp (by omega)
  have hm : mean xs = c := mean_const hne h
  unfold sampleVar
  rw [if_pos h2]
  have hz : (xs.map (fun x => (x - mean xs) ^ 2)).sum = 0 := by
    apply List.sum_eq_zero
    intro x hx
    simp only [List.mem_map] at hx
    obtain ⟨y, hy, rfl⟩ := hx
    rw [hm, h y hy]
    ring
  rw [hz, zero_div]

/-! ### Claim theorems -/

/-- C10: with exactly one residual, the sample standard deviation is undefined
(pandas NaN, modelled as `none`), both threshold bounds are undefined, and no
point is flagged as anomalous, since a comparison against a NaN bound is false. -/
theorem single_residual_no_flags (observed predicted : List ℚ) (k : ℚ)
    (h1 : observed.length = 1) (h2 : predicted.length = 1) :
    sampleStd (residuals observed predicted) = none ∧
    upperThreshold (residuals observed predicted) k = none ∧
    lowerThreshold (residuals observed predicted) k = none ∧
    ∀ i, ¬ IsAnomaly observed predicted k i := by
  have hv : sampleVar (residuals observed predicted) = none := by
    apply sampleVar_none
    rw [length_residuals, h1, h2]
    omega
  refine ⟨?_, ?_, ?_, fun i => not_isAnomaly_of_none hv i⟩
  · simp [sampleStd, hv]
  · simp [upperThreshold, sampleStd, hv]
  · simp [lowerThreshold, sampleStd, hv]

/-- Witness for C10 at observed = [5], predicted = [3]. -/
theorem single_residual_no_flags_witness :
    ([(5:ℚ)] : List ℚ).length = 1 ∧ ([(3:ℚ)] : List ℚ).length = 1 ∧
    (sampleStd (residuals [5] [3]) = none ∧
     upperThreshold (residuals [5] [3]) anomalyThreshold = none ∧
     lowerThreshold (residuals [5] [3]) anomalyThreshold = none ∧
     ∀ i, ¬ IsAnomaly [5] [3] anomalyThreshold i) :=
  ⟨rfl, rfl, single_residual_no_flags [5] [3] anomalyThreshold rfl rfl⟩

/-- C5: whenever the thresholds are defined, they satisfy
`upper_threshold - lower_threshold = 2 * k * σ` exactly. -/
theorem threshold_width (rs : List ℚ) (k : ℚ) (v : ℚ) (h : sampleVar rs = some v) :
    ∃ u l : ℝ, upperThreshold rs k = some u ∧ lowerThreshold rs k = some l ∧
      u - l = 2 * (k : ℝ) * Real.sqrt (v : ℝ) := by
  refine ⟨_, _, upperThreshold_eq k h, lowerThreshold_eq k h, ?_⟩
  ring

/-- Witness for C5 on the residual population [0, 1] (sample variance 1/2). -/
theorem threshold_width_witness :
    sampleVar [0, 1] = some (1/2) ∧
    ∃ u l : ℝ, upperThreshold [0, 1] anomalyThreshold = some u ∧
      lowerThreshold [0, 1] anomalyThreshold = some l ∧
      u - l = 2 * (anomalyThreshold : ℝ) * Real.sqrt (((1/2 : ℚ) : ℝ)) :=
  ⟨by norm_num [sampleVar, mean], threshold_width [0, 1] anomalyThreshold (1/2) (by norm_num [sampleVar, mean])⟩

/-- C3: when all residuals are equal (and there are at least two of them, so the
standard deviation is defined), σ = 0, both bounds equal the mean (no NaN and no
division by zero), a point is flagged exactly when its residual differs from the
mean, and hence no point at all is flagged. -/
theorem constant_residuals_no_flags (observed predicted : List ℚ) (c : ℚ)
    (h2 : 2 ≤ (residuals observed predicted).length)
    (hc : ∀ x ∈ residuals observed predicted, x = c) :
    sampleStd (residuals observed predicted) = some 0 ∧
    upperThreshold (residuals observed predicted) anomalyThreshold
      = some ((mean (residuals observed predicted) : ℚ) : ℝ) ∧
    lowerThreshold (residuals observed predicted) anomalyThreshold
      = some ((mean (residuals observed predicted) : ℚ) : ℝ) ∧
    (∀ i < (residuals observed predicted).length,
      (IsAnomaly observed predicted anomalyThreshold i ↔
        (residuals observed predicted).getD i 0 ≠ mean (residuals observed predicted))) ∧
    (∀ i < (residuals observed predicted).length,
      ¬ IsAnomaly observed predicted anomalyThreshold i) := by
  have hv : sampleVar (residuals observed predicted) = some 0 := sampleVar_const h2 hc
  have hm : mean (residuals observed predicted) = c :=
    mean_const (List.length_pos.mp (by omega)) hc
  have hu : upperThreshold (residuals observed predicted) anomalyThreshold
      = some ((mean (residuals observed predicted) : ℚ) : ℝ) := by
    rw [upperThreshold_eq anomalyThreshold hv]
    simp
  have hl : lowerThreshold (residuals observed predicted) anomalyThreshold
      = some ((mean (residuals observed predicted) : ℚ) : ℝ) := by
    rw [lowerThreshold_eq anomalyThreshold hv]
    simp
  have hiff : ∀ i < (residuals observed predicted).length,
      (IsAnomaly observed predicted anomalyThreshold i ↔
        (residuals observed predicted).getD i 0 ≠ mean (residuals observed predicted)) := by
    intro i _
    rw [isAnomaly_def hu hl i]
    rw [or_comm, lt_or_lt_iff_ne]
    constructor
    · intro h
      exact fun he => h (by exact_mod_cast he)
    · intro h
      exact fun he => h (by exact_mod_cast he)
  refine ⟨sampleStd_eq hv ▸ (by simp), hu, hl, hiff, ?_⟩
  intro i hi
  rw [hiff i hi]
  intro h
  apply h
  have : (residuals observed predicted).getD i 0 = c := by
    rw [List.getD_eq_getElem _ _ hi]
    exact hc _ (List.getElem_mem hi)
  rw [this, hm]

/-- Witness for C3: a constant observed series equal to the predicted one
(all residuals 0) yields σ = 0, bounds equal to the mean, and zero anomalies. -/
theorem constant_residuals_no_flags_witness :
    2 ≤ (residuals [10, 10, 10] [10, 10, 10]).length ∧
    (∀ x ∈ residuals [10, 10, 10] [10, 10, 10], x = 0) ∧
    (sampleStd (residuals [10, 10, 10] [10, 10, 10]) = some 0 ∧
    upperThreshold (residuals [10, 10, 10] [10, 10, 10]) anomalyThreshold
      = some ((mean (residuals [10, 10, 10] [10, 10, 10]) : ℚ) : ℝ) ∧
    lowerThreshold (residuals [10, 10, 10] [10, 10, 10]) anomalyThreshold
      = some ((mean (residuals [10, 10, 10] [10, 10, 10]) : ℚ) : ℝ) ∧
    (∀ i < (residuals [10, 10, 10] [10, 10, 10]).length,
      (IsAnomaly [10, 10, 10] [10, 10, 10] anomalyThreshold i ↔
        (residuals [10, 10, 10] [10, 10, 10]).getD i 0
          ≠ mean (residuals [10, 10, 10] [10, 10, 10]))) ∧
    (∀ i < (residuals [10, 10, 10] [10, 10, 10]).length,
      ¬ IsAnomaly [10, 10, 10] [10, 10, 10] anomalyThreshold i)) :=
  ⟨by norm_num [residuals], by norm_num [residuals],
    constant_residuals_no_flags [10, 10, 10] [10, 10, 10] 0
      (by norm_num [residuals]) (by norm_num [residuals])⟩

lemma lower_le_upper {rs : List ℚ} {k : ℚ} {u l : ℝ} (hk : 0 ≤ k)
    (hu : upperThreshold rs k = some u) (hl : lowerThreshold rs k = some l) :
    l ≤ u := by
  cases hv : sampleVar rs with
  | none =>
      rw [upperThreshold, sampleStd, hv] at hu
      simp at hu
  | some v =>
      rw [upperThreshold_eq k hv] at hu
      rw [lowerThreshold_eq k hv] at hl
      injection hu with hu
      injection hl with hl
      subst hu
      subst hl
      have hks : (0:ℝ) ≤ (k : ℝ) * Real.sqrt (v : ℝ) :=
        mul_nonneg (by exact_mod_cast hk) (Real.sqrt_nonneg _)
      linarith

lemma anomalyThreshold_nonneg : (0 : ℚ) ≤ anomalyThreshold := by
  norm_num [anomalyThreshold]

/-- C1: for equal-length observed/predicted columns and an in-range index, the
anomaly flag holds exactly when the residual `observed[i] - predicted[i]`
strictly exceeds the upper bound or strictly undercuts the lower bound derived
from the residual statistics of the run; a residual exactly equal to either bound is
not flagged. -/
theorem anomaly_rule_correct (observed predicted : List ℚ) (i : ℕ)
    (hlen : observed.length = predicted.length) (hi : i < observed.length) :
    (IsAnomaly observed predicted anomalyThreshold i ↔
      ∃ u l : ℝ,
        upperThreshold (residuals observed predicted) anomalyThreshold = some u ∧
        lowerThreshold (residuals observed predicted) anomalyThreshold = some l ∧
        (((observed.getD i 0 - predicted.getD i 0 : ℚ) : ℝ) > u ∨
         ((observed.getD i 0 - predicted.getD i 0 : ℚ) : ℝ) < l)) ∧
    (∀ u l : ℝ,
        upperThreshold (residuals observed predicted) anomalyThreshold = some u →
        lowerThreshold (residuals observed predicted) anomalyThreshold = some l →
        (((observed.getD i 0 - predicted.getD i 0 : ℚ) : ℝ) = u ∨
         ((observed.getD i 0 - predicted.getD i 0 : ℚ) : ℝ) = l) →
        ¬ IsAnomaly observed predicted anomalyThreshold i) := by
  have hres : (residuals observed predicted).getD i 0
      = observed.getD i 0 - predicted.getD i 0 :=
    residuals_getD observed predicted i hi (hlen ▸ hi)
  constructor
  · constructor
    · intro h
      cases hv : sampleVar (residuals observed predicted) with
      | none => exact absurd h (not_isAnomaly_of_none hv i)
      | some v =>
          refine ⟨_, _, upperThreshold_eq anomalyThreshold hv,
            lowerThreshold_eq anomalyThreshold hv, ?_⟩
          rw [isAnomaly_def (upperThreshold_eq anomalyThreshold hv)
            (lowerThreshold_eq anomalyThreshold hv) i, hres] at h
          exact h
    · rintro ⟨u, l, hu, hl, hcmp⟩
      rw [isAnomaly_def hu hl i, hres]
      exact hcmp
  · rintro u l hu hl heq hanom
    rw [isAnomaly_def hu hl i, hres] at hanom
    have hle : l ≤ u := lower_le_upper anomalyThreshold_nonneg hu hl
    rcases heq with heq | heq <;> rcases hanom with h | h <;> rw [heq] at h <;> linarith

/-- Witness for C1 at observed = [1, 2], predicted = [1, 1], index 0. -/
theorem anomaly_rule_correct_witness :
    ([(1:ℚ), 2] : List ℚ).length = ([(1:ℚ), 1] : List ℚ).length ∧
    0 < ([(1:ℚ), 2] : List ℚ).length ∧
    ((IsAnomaly [1, 2] [1, 1] anomalyThreshold 0 ↔
      ∃ u l : ℝ,
        upperThreshold (residuals [1, 2] [1, 1]) anomalyThreshold = some u ∧
        lowerThreshold (residuals [1, 2] [1, 1]) anomalyThreshold = some l ∧
        ((((([(1:ℚ), 2] : List ℚ).getD 0 0 - ([(1:ℚ), 1] : List ℚ).getD 0 0 : ℚ)) : ℝ) > u ∨
         (((([(1:ℚ), 2] : List ℚ).getD 0 0 - ([(1:ℚ), 1] : List ℚ).getD 0 0 : ℚ)) : ℝ) < l)) ∧
    (∀ u l : ℝ,
        upperThreshold (residuals [1, 2] [1, 1]) anomalyThreshold = some u →
        lowerThreshold (residuals [1, 2] [1, 1]) anomalyThreshold = some l →
        (((([(1:ℚ), 2] : List ℚ).getD 0 0 - ([(1:ℚ), 1] : List ℚ).getD 0 0 : ℚ) : ℝ) = u ∨
         ((([(1:ℚ), 2] : List ℚ).getD 0 0 - ([(1:ℚ), 1] : List ℚ).getD 0 0 : ℚ) : ℝ) = l) →
        ¬ IsAnomaly [1, 2] [1, 1] anomalyThreshold 0)) :=
  ⟨rfl, by norm_num, anomaly_rule_correct [1, 2] [1, 1] 0 rfl (by norm_num)⟩

/-- C2: for any residual population with a defined standard deviation, the
bounds are `μ ± k·σ` where `μ` is the batch mean (sum over length of all
residuals of the run), `σ` the sample standard deviation (sum of squared
deviations from `μ` over the whole run divided by `n - 1`, then a square root),
and the configured multiplier `k` defaults to 2.5. -/
theorem threshold_formula (rs : List ℚ) (h2 : 2 ≤ rs.length) :
    upperThreshold rs anomalyThreshold
      = some ((mean rs : ℝ) + (anomalyThreshold : ℝ) *
          Real.sqrt (((rs.map (fun x => (x - mean rs) ^ 2)).sum
            / ((rs.length : ℚ) - 1) : ℚ))) ∧
    lowerThreshold rs anomalyThreshold
      = some ((mean rs : ℝ) - (anomalyThreshold : ℝ) *
          Real.sqrt (((rs.map (fun x => (x - mean rs) ^ 2)).sum
            / ((rs.length : ℚ) - 1) : ℚ))) ∧
    mean rs = rs.sum / (rs.length : ℚ) ∧
    anomalyThreshold = 5/2 := by
  have hv : sampleVar rs
      = some ((rs.map (fun x => (x - mean rs) ^ 2)).sum / ((rs.length : ℚ) - 1)) := by
    unfold sampleVar
    rw [if_pos h2]
  exact ⟨upperThreshold_eq _ hv, lowerThreshold_eq _ hv, rfl, rfl⟩

/-- Witness for C2 on the residual population [0, 1]. -/
theorem threshold_formula_witness :
    2 ≤ ([(0:ℚ), 1] : List ℚ).length ∧
    (upperThreshold [0, 1] anomalyThreshold
      = some ((mean [0, 1] : ℝ) + (anomalyThreshold : ℝ) *
          Real.sqrt (((([(0:ℚ), 1] : List ℚ).map (fun x => (x - mean [0, 1]) ^ 2)).sum
            / ((([(0:ℚ), 1] : List ℚ).length : ℚ) - 1) : ℚ))) ∧
    lowerThreshold [0, 1] anomalyThreshold
      = some ((mean [0, 1] : ℝ) - (anomalyThreshold : ℝ) *
          Real.sqrt (((([(0:ℚ), 1] : List ℚ).map (fun x => (x - mean [0, 1]) ^ 2)).sum
            / ((([(0:ℚ), 1] : List ℚ).length : ℚ) - 1) : ℚ))) ∧
    mean [0, 1] = ([(0:ℚ), 1] : List ℚ).sum / (([(0:ℚ), 1] : List ℚ).length : ℚ) ∧
    anomalyThreshold = 5/2) :=
  ⟨by norm_num, threshold_formula [0, 1] (by norm_num)⟩

/-- C4 counterexample: on observed = [10,10,10,10,100] and predicted all 10,
the residuals are [0,0,0,0,90] with mean μ = 18, but index 4 is NOT flagged:
its residual 90 does not exceed μ + 2.5·σ, because σ is the sample standard
deviation √1620 ≈ 40.25, making the upper bound ≈ 118.6 (even with the
population standard deviation 36 the bound would be 108 > 90). -/
theorem scenario_spike_not_flagged :
    residuals [10, 10, 10, 10, 100] [10, 10, 10, 10, 10] = [0, 0, 0, 0, 90] ∧
    mean (residuals [10, 10, 10, 10, 100] [10, 10, 10, 10, 10]) = 18 ∧
    ¬ IsAnomaly [10, 10, 10, 10, 100] [10, 10, 10, 10, 10] anomalyThreshold 4 := by
  have hres : residuals [10, 10, 10, 10, 100] [10, 10, 10, 10, 10] = [0, 0, 0, 0, 90] := by
    norm_num [residuals]
  have hv : sampleVar (residuals [10, 10, 10, 10, 100] [10, 10, 10, 10, 10])
      = some 1620 := by
    rw [hres]
    norm_num [sampleVar, mean]
  refine ⟨hres, by rw [hres]; norm_num [mean], ?_⟩
  rw [isAnomaly_iff_isAnomalyB anomalyThreshold_nonneg 4]
  unfold isAnomalyB
  rw [hv]
  simp only [decide_eq_true_eq, hres, not_lt]
  have h90 : ([0, 0, 0, 0, 90] : List ℚ).getD 4 0 = 90 := rfl
  rw [h90]
  norm_num [mean, anomalyThreshold]

/-- C4 amended: on observed = [10,10,10,10,100] and predicted all 10, the
residuals are [0,0,0,0,90] with mean μ = 18, and NO index is flagged as
anomalous (the spike residual 90 stays below the upper bound μ + 2.5·σ ≈ 118.6). -/
theorem scenario_spike_amended :
    residuals [10, 10, 10, 10, 100] [10, 10, 10, 10, 10] = [0, 0, 0, 0, 90] ∧
    mean (residuals [10, 10, 10, 10, 100] [10, 10, 10, 10, 10]) = 18 ∧
    ∀ i, ¬ IsAnomaly [10, 10, 10, 10, 100] [10, 10, 10, 10, 10] anomalyThreshold i := by
  have hres : residuals [10, 10, 10, 10, 100] [10, 10, 10, 10, 10] = [0, 0, 0, 0, 90] := by
    norm_num [residuals]
  have hv : sampleVar (residuals [10, 10, 10, 10, 100] [10, 10, 10, 10, 10])
      = some 1620 := by
    rw [hres]
    norm_num [sampleVar, mean]
  refine ⟨hres, by rw [hres]; norm_num [mean], ?_⟩
  intro i
  rw [isAnomaly_iff_isAnomalyB anomalyThreshold_nonneg i]
  unfold isAnomalyB
  rw [hv]
  simp only [decide_eq_true_eq, hres, not_lt]
  have hgetD : ([0, 0, 0, 0, 90] : List ℚ).getD i 0 = 0 ∨
      ([0, 0, 0, 0, 90] : List ℚ).getD i 0 = 90 := by
    match i with
    | 0 => exact Or.inl rfl
    | 1 => exact Or.inl rfl
    | 2 => exact Or.inl rfl
    | 3 => exact Or.inl rfl
    | 4 => exact Or.inr rfl
    | (n + 5) => exact Or.inl rfl
  rcases hgetD with h | h <;> rw [h] <;> norm_num [mean, anomalyThreshold]

lemma map_getD_range {α : Type _} (l : List α) (d : α) (n : ℕ) (h : l.length = n) :
    (List.range n).map (fun i => l.getD i d) = l := by
  apply List.ext_getElem
  · simp [h]
  · intro i h1 h2
    simp only [List.getElem_map, List.getElem_range]
    rw [List.getD_eq_getElem]

lemma annotate_map_cpu (ts : List ℕ) (obs pred : List ℚ) (k : ℚ) :
    (annotate ts obs pred k).map (·.cpu_percent) = obs := by
  simp only [annotate, List.map_map, Function.comp]
  exact map_getD_range obs 0 obs.length rfl

lemma annotate_map_predicted (ts : List ℕ) (obs pred : List ℚ) (k : ℚ)
    (hlen : pred.length = obs.length) :
    (annotate ts obs pred k).map (·.predicted) = pred := by
  simp only [annotate, List.map_map, Function.comp]
  exact map_getD_range pred 0 obs.length hlen

lemma annotate_map_timestamp (ts : List ℕ) (obs pred : List ℚ) (k : ℚ)
    (hts : ts.length = obs.length) :
    (annotate ts obs pred k).map (·.timestamp) = ts := by
  simp only [annotate, List.map_map, Function.comp]
  exact map_getD_range ts 0 obs.length hts

/-- C6: the Residual Analyzer is a deterministic function of the
(observed, predicted) pair: running it a second time on the columns of its own
output produces exactly the same annotated records (hence the same anomaly
flags) and exactly the same threshold bounds. -/
theorem analyzer_idempotent (ts : List ℕ) (obs pred : List ℚ) (k : ℚ)
    (hlen : pred.length = obs.length) (hts : ts.length = obs.length) :
    annotate ((annotate ts obs pred k).map (·.timestamp))
             ((annotate ts obs pred k).map (·.cpu_percent))
             ((annotate ts obs pred k).map (·.predicted)) k
      = annotate ts obs pred k ∧
    upperThreshold (residuals ((annotate ts obs pred k).map (·.cpu_percent))
        ((annotate ts obs pred k).map (·.predicted))) k
      = upperThreshold (residuals obs pred) k ∧
    lowerThreshold (residuals ((annotate ts obs pred k).map (·.cpu_percent))
        ((annotate ts obs pred k).map (·.predicted))) k
      = lowerThreshold (residuals obs pred) k := by
  rw [annotate_map_cpu ts obs pred k, annotate_map_predicted ts obs pred k hlen,
    annotate_map_timestamp ts obs pred k hts]
  exact ⟨rfl, rfl, rfl⟩

/-- Witness for C6 at ts = [0, 1], observed = [1, 2], predicted = [1, 1]. -/
theorem analyzer_idempotent_witness :
    ([(1:ℚ), 1] : List ℚ).length = ([(1:ℚ), 2] : List ℚ).length ∧
    ([0, 1] : List ℕ).length = ([(1:ℚ), 2] : List ℚ).length ∧
    (annotate ((annotate [0, 1] [1, 2] [1, 1] anomalyThreshold).map (·.timestamp))
             ((annotate [0, 1] [1, 2] [1, 1] anomalyThreshold).map (·.cpu_percent))
             ((annotate [0, 1] [1, 2] [1, 1] anomalyThreshold).map (·.predicted))
             anomalyThreshold
      = annotate [0, 1] [1, 2] [1, 1] anomalyThreshold ∧
    upperThreshold
        (residuals ((annotate [0, 1] [1, 2] [1, 1] anomalyThreshold).map (·.cpu_percent))
          ((annotate [0, 1] [1, 2] [1, 1] anomalyThreshold).map (·.predicted)))
        anomalyThreshold
      = upperThreshold (residuals [1, 2] [1, 1]) anomalyThreshold ∧
    lowerThreshold
        (residuals ((annotate [0, 1] [1, 2] [1, 1] anomalyThreshold).map (·.cpu_percent))
          ((annotate [0, 1] [1, 2] [1, 1] anomalyThreshold).map (·.predicted)))
        anomalyThreshold
      = lowerThreshold (residuals [1, 2] [1, 1]) anomalyThreshold) :=
  ⟨rfl, rfl, analyzer_idempotent [0, 1] [1, 2] [1, 1] anomalyThreshold rfl rfl⟩

/-- C7: the generated series has exactly `days * hours_per_day` values, and
every value lies in the closed interval [0, 100], whatever the noise and spike
draws are. -/
theorem generated_series_length_range (noise spike : ℕ → ℝ) :
    (generate_synthetic_data noise spike).length = days * hoursPerDay ∧
    ∀ x ∈ generate_synthetic_data noise spike, 0 ≤ x ∧ x ≤ 100 := by
  constructor
  · simp [generate_synthetic_data]
  · intro x hx
    simp only [generate_synthetic_data, List.mem_map] at hx
    obtain ⟨t, _, rfl⟩ := hx
    unfold clip
    refine ⟨le_min (le_max_right _ _) (by norm_num), min_le_right _ _⟩

/-- C8: the generated series is a deterministic function of the seeded random
draws: two runs whose noise streams agree on the index range of the series and whose
anomaly-magnitude draws agree on the configured anomaly indices produce
identical series (so a fixed seed, which fixes both streams, reproduces the
series exactly). -/
theorem generator_deterministic (noise₁ noise₂ spike₁ spike₂ : ℕ → ℝ)
    (hn : ∀ t < days * hoursPerDay, noise₁ t = noise₂ t)
    (hs : ∀ t ∈ anomaliesIndices, spike₁ t = spike₂ t) :
    generate_synthetic_data noise₁ spike₁ = generate_synthetic_data noise₂ spike₂ := by
  unfold generate_synthetic_data
  apply List.map_congr_left
  intro t ht
  rw [List.mem_range] at ht
  rw [hn t ht]
  by_cases hmem : t ∈ anomaliesIndices
  · rw [if_pos hmem, if_pos hmem, hs t hmem]
  · rw [if_neg hmem, if_neg hmem]

/-- Witness for C8 with both runs using the zero streams. -/
theorem generator_deterministic_witness :
    (∀ t < days * hoursPerDay, (fun _ : ℕ => (0:ℝ)) t = (fun _ : ℕ => (0:ℝ)) t) ∧
    (∀ t ∈ anomaliesIndices, (fun _ : ℕ => (0:ℝ)) t = (fun _ : ℕ => (0:ℝ)) t) ∧
    generate_synthetic_data (fun _ => 0) (fun _ => 0)
      = generate_synthetic_data (fun _ => 0) (fun _ => 0) :=
  ⟨fun _ _ => rfl, fun _ _ => rfl,
    generator_deterministic _ _ _ _ (fun _ _ => rfl) (fun _ _ => rfl)⟩

lemma length_filter_eq_sum_indicator (records : List AnnotatedRecord) :
    (records.filter (·.is_anomaly)).length
      = (records.map (fun r => if r.is_anomaly then 1 else 0)).sum := by
  induction records with
  | nil => rfl
  | cons a t ih =>
      by_cases h : a.is_anomaly <;> simp [List.filter, h, ih, Nat.add_comm]

/-- C9: the report holds exactly the flagged rows: its length is the sum of the
`is_anomaly` flags over the full record set, every reported row is one of the
input rows with its flag set (all fields unchanged), the rows stay in ascending
timestamp order, and producing the plot leaves the report unchanged. -/
theorem report_exactly_flagged (records : List AnnotatedRecord) (k : ℚ)
    (hsorted : records.Pairwise (fun a b => a.timestamp < b.timestamp)) :
    (save_report records).length
      = (records.map (fun r => if r.is_anomaly then 1 else 0)).sum ∧
    (∀ r ∈ save_report records, r ∈ records ∧ r.is_anomaly = true) ∧
    (save_report records).Pairwise (fun a b => a.timestamp < b.timestamp) ∧
    save_report (visualize_results records k).2 = save_report records := by
  refine ⟨length_filter_eq_sum_indicator records, ?_, ?_, rfl⟩
  · intro r hr
    unfold save_report at hr
    rw [List.mem_filter] at hr
    exact hr
  · exact List.Pairwise.sublist (List.filter_sublist _) hsorted

/-- Witness for C9 on a two-record set with one flagged row. -/
theorem report_exactly_flagged_witness :
    ([⟨0, 1, 1, 0, false⟩, ⟨1, 5, 1, 4, true⟩] : List AnnotatedRecord).Pairwise
      (fun a b => a.timestamp < b.timestamp) ∧
    ((save_report [⟨0, 1, 1, 0, false⟩, ⟨1, 5, 1, 4, true⟩]).length
      = (([⟨0, 1, 1, 0, false⟩, ⟨1, 5, 1, 4, true⟩] : List AnnotatedRecord).map
          (fun r => if r.is_anomaly then 1 else 0)).sum ∧
    (∀ r ∈ save_report [⟨0, 1, 1, 0, false⟩, ⟨1, 5, 1, 4, true⟩],
        r ∈ ([⟨0, 1, 1, 0, false⟩, ⟨1, 5, 1, 4, true⟩] : List AnnotatedRecord) ∧
        r.is_anomaly = true) ∧
    (save_report [⟨0, 1, 1, 0, false⟩, ⟨1, 5, 1, 4, true⟩]).Pairwise
      (fun a b => a.timestamp < b.timestamp) ∧
    save_report (visualize_results [⟨0, 1, 1, 0, false⟩, ⟨1, 5, 1, 4, true⟩]
        anomalyThreshold).2
      = save_report [⟨0, 1, 1, 0, false⟩, ⟨1, 5, 1, 4, true⟩]) :=
  ⟨by simp, report_exactly_flagged _ anomalyThreshold (by simp)⟩

end CPUAnomaly
